import Mathlib

/-!
Verification of the cinema-ticket-booking program (`main.py`).

The program is a sequential Python script backed by two SQLite tables:
`Seat { seat_id, price, taken }` and `Card { number, cvc, balance }`.
We embed it shallowly: each table is a list of records, a database state
bundles the two tables, `SELECT ... fetchone()` is `List.find?` (first
matching row), and `UPDATE ... WHERE` maps over the list rewriting every
row matching the WHERE clause.  Currency amounts and the `taken` flag are
modelled as `Int` (the program compares and subtracts them exactly).
Operations that the Python code writes as methods mutating the database
become state-passing functions `DB → ... → result × DB`.

The internal `ValueError` that `Seat.get_price` / `Seat.is_free` raise on
a missing row — and immediately catch in their own broad `except` — is
made visible as an intermediate `Option` value (`none` = the error was
raised) before the handler turns it into the degraded default.

`random.choice(string.ascii_letters)` in `Ticket.__init__` is modelled by
an arbitrary choice function `f : Nat → Nat` indexing into the
`string.ascii_letters` character list modulo its length: whatever the
random source yields, the chosen character is an element of that list.
-/

/-- A row of the `Seat` table: `{ seat_id, price, taken }`. -/
structure SeatRec where
  seat_id : String
  price : Int
  taken : Int
deriving DecidableEq

/-- A row of the `Card` table: `{ number, cvc, balance }`. -/
structure CardRec where
  number : String
  cvc : String
  balance : Int
deriving DecidableEq

/-- The persistent state: the `Seat` table (`cinema.db`) and the `Card`
table (`banking.db`). -/
structure DB where
  seats : List SeatRec
  cards : List CardRec
deriving DecidableEq

/-- The in-memory `Card` object: `Card.__init__(type, number, cvc, holder)`.
Only `number` and `cvc` are ever used as the lookup key. -/
structure Card where
  type : String
  number : String
  cvc : String
  holder : String
deriving DecidableEq

/-- `SELECT ... FROM Seat WHERE seat_id = ?` followed by `fetchone()`:
the first row whose `seat_id` matches, if any. -/
def seatQuery (db : DB) (sid : String) : Option SeatRec :=
  db.seats.find? (fun r => r.seat_id == sid)

/-- `SELECT balance FROM Card WHERE number = ? AND cvc = ?` followed by
`fetchone()`: the first row whose `number` and `cvc` both match, if any. -/
def cardQuery (db : DB) (number cvc : String) : Option CardRec :=
  db.cards.find? (fun r => r.number == number && r.cvc == cvc)

/-- The body of `Seat.get_price` before its `except` handler: `some price`
when a row is fetched, `none` when `fetchone()` returns no row and the
method raises `ValueError(f"Seat ID ... not found.")`. -/
def getPriceResult (db : DB) (sid : String) : Option Int :=
  (seatQuery db sid).map (fun r => r.price)

/-- `Seat.get_price`: the raised `ValueError` is caught by the method's own
broad `except`, which prints the error and returns `0`. -/
def get_price (db : DB) (sid : String) : Int :=
  match getPriceResult db sid with
  | some p => p
  | none => 0

/-- The body of `Seat.is_free` before its `except` handler: `some (taken == 0)`
when a row is fetched, `none` when the method raises `ValueError`. -/
def isFreeResult (db : DB) (sid : String) : Option Bool :=
  (seatQuery db sid).map (fun r => r.taken == 0)

/-- `Seat.is_free`: the raised `ValueError` is caught by the broad `except`,
which prints the error and returns `False`. -/
def is_free (db : DB) (sid : String) : Bool :=
  match isFreeResult db sid with
  | some b => b
  | none => false

/-- `UPDATE Seat SET taken = ? WHERE seat_id = ?`: every row whose
`seat_id` matches gets its `taken` column set to `v`. -/
def updateSeatTaken (seats : List SeatRec) (sid : String) (v : Int) : List SeatRec :=
  seats.map (fun r => if r.seat_id == sid then { r with taken := v } else r)

/-- `Seat.occupy`: re-checks `is_free`; if the seat is free, runs
`UPDATE Seat SET taken = 1 WHERE seat_id = ?` and commits; otherwise a
silent no-op. -/
def occupy (db : DB) (sid : String) : DB :=
  if is_free db sid then { db with seats := updateSeatTaken db.seats sid 1 } else db

/-- `UPDATE Card SET balance = ? WHERE number = ? AND cvc = ?`: every row
whose `number` and `cvc` match gets its `balance` column set to `v`. -/
def updateCardBalance (cards : List CardRec) (number cvc : String) (v : Int) : List CardRec :=
  cards.map (fun r => if r.number == number && r.cvc == cvc then { r with balance := v } else r)

/-- `Card.validate(price)`: fetches the balance by `(number, cvc)`.
If a row is found and `balance >= price`, updates the balance to
`balance - price`, commits, and returns `True`; otherwise prints a message
and returns `False` with the database untouched. -/
def validate (db : DB) (number cvc : String) (price : Int) : Bool × DB :=
  match cardQuery db number cvc with
  | some r =>
    if r.balance ≥ price then
      (true, { db with cards := updateCardBalance db.cards number cvc (r.balance - price) })
    else
      (false, db)
  | none => (false, db)

/-- `string.ascii_letters`: the 52 ASCII letters, lowercase then uppercase. -/
def asciiLetters : List Char :=
  "abcdefghijklmnopqrstuvwxyzABCDEFGHIJKLMNOPQRSTUVWXYZ".toList

/-- The character set the spec describes the identifier as drawn from:
letters and digits. -/
def alphanumericChars : List Char :=
  asciiLetters ++ "0123456789".toList

/-- One evaluation of `random.choice(string.ascii_letters)`: however the
random source chose, the result is an element of `asciiLetters`. -/
def pickChar (n : Nat) : Char :=
  asciiLetters.get ⟨n % asciiLetters.length, Nat.mod_lt _ (by decide)⟩

/-- `"".join(random.choice(string.ascii_letters) for _ in range(8))` in
`Ticket.__init__`, with the random source abstracted as `f`. -/
def ticketId (f : Nat → Nat) : String :=
  String.mk ((List.range 8).map (fun i => pickChar (f i)))

/-- The in-memory `Ticket` object built by `Ticket.__init__`. -/
structure Ticket where
  seat_number : String
  price : Int
  id : String
  userName : String
deriving DecidableEq

/-- `Ticket(user, price, seat_number)` constructing the ticket with a fresh
random identifier. -/
def mkTicket (f : Nat → Nat) (userName : String) (price : Int) (seat_number : String) : Ticket :=
  { seat_number := seat_number, price := price, id := ticketId f, userName := userName }

/-- `User.buy(seat, card)`: checks `seat.is_free()`; if free, calls
`card.validate(price=seat.get_price())`; on success occupies the seat,
builds a `Ticket` (whose price field re-reads `seat.get_price()` after the
occupy) and renders it, returning `"Purchase Successful!"`.  The emitted
ticket is returned as `some t` (its PDF rendering is an opaque external
effect); the failure branches return the database untouched and no
ticket. -/
def buy (f : Nat → Nat) (userName : String) (db : DB) (sid : String) (card : Card) :
    String × DB × Option Ticket :=
  if is_free db sid then
    match validate db card.number card.cvc (get_price db sid) with
    | (true, db1) =>
      let db2 := occupy db1 sid
      ("Purchase Successful!", db2, some (mkTicket f userName (get_price db2 sid) sid))
    | (false, db1) => ("There was a problem with your card!", db1, none)
  else
    ("Seat is taken!", db, none)

/-! ## Generic lemmas about `fetchone` after an `UPDATE` -/

/-- If `find?` fetches `a` and the update function preserves the WHERE
predicate, then after the row-wise update `find?` fetches the updated `a`. -/
theorem find?_map_update {α : Type} (p : α → Bool) (g : α → α)
    (hg : ∀ x, p x = true → p (g x) = true) :
    ∀ (l : List α) (a : α), l.find? p = some a →
      (l.map (fun x => if p x then g x else x)).find? p = some (g a) := by
  intro l
  induction l with
  | nil => intro a h; exact Option.noConfusion h
  | cons x xs ih =>
    intro a h
    cases hx : p x with
    | true =>
      rw [List.find?_cons_of_pos _ hx, Option.some_inj] at h
      subst h
      simp only [List.map_cons, if_pos hx]
      exact List.find?_cons_of_pos _ (hg x hx)
    | false =>
      have hx' : ¬p x = true := by simp [hx]
      rw [List.find?_cons_of_neg _ hx'] at h
      simp only [List.map_cons, if_neg hx']
      rw [List.find?_cons_of_neg _ hx']
      exact ih a h

/-! ## Basic facts about the accessors -/

/-- `Card.validate` touches only the `Card` table. -/
theorem validate_seats (db : DB) (n c : String) (p : Int) :
    ((validate db n c p).2).seats = db.seats := by
  unfold validate
  cases hq : cardQuery db n c with
  | none => rfl
  | some r => by_cases hb : r.balance ≥ p <;> simp [hb]

/-- When `Card.validate` returns `False`, no `UPDATE` ran: the database is
returned untouched. -/
theorem validate_of_false {db : DB} {n c : String} {p : Int}
    (h : (validate db n c p).1 = false) : (validate db n c p).2 = db := by
  unfold validate at h ⊢
  cases hq : cardQuery db n c with
  | none => rfl
  | some r =>
    rw [hq] at h
    by_cases hb : r.balance ≥ p
    · simp [hb] at h
    · simp [hb]

/-- `Seat.is_free` reads only the `Seat` table. -/
theorem is_free_cards (db : DB) (cs : List CardRec) (sid : String) :
    is_free { db with cards := cs } sid = is_free db sid := rfl

/-- `Seat.get_price` reads only the `Seat` table. -/
theorem get_price_cards (db : DB) (cs : List CardRec) (sid : String) :
    get_price { db with cards := cs } sid = get_price db sid := rfl

/-! ## Concrete database states used by witnesses -/

/-- Scenario 1 of the spec: seat `"12"` priced 10 and free, a second seat
`"13"` priced 100 and free, card `("4111", "123")` with balance 50. -/
def dbS1 : DB :=
  { seats := [⟨"12", 10, 0⟩, ⟨"13", 100, 0⟩], cards := [⟨"4111", "123", 50⟩] }

/-- The card object used in the witness scenarios. -/
def cardS1 : Card := ⟨"visa", "4111", "123", "Alice"⟩

/-- Scenario 2 of the spec: seat `"12"` already taken. -/
def dbTaken : DB :=
  { seats := [⟨"12", 10, 1⟩], cards := [⟨"4111", "123", 40⟩] }

/-! ## Claims -/

/-- `User.buy`, branch 1: seat not free. -/
theorem buy_of_taken {db : DB} {sid : String} (f : Nat → Nat) (u : String) (card : Card)
    (hfree : is_free db sid = false) :
    buy f u db sid card = ("Seat is taken!", db, none) := by
  simp [buy, hfree]

/-- `User.buy`, branch 2: seat free but card validation fails; the database
comes back untouched. -/
theorem buy_of_card_fail {db : DB} {sid : String} {card : Card} (f : Nat → Nat) (u : String)
    (hfree : is_free db sid = true)
    (hv : (validate db card.number card.cvc (get_price db sid)).1 = false) :
    buy f u db sid card = ("There was a problem with your card!", db, none) := by
  have hdb : (validate db card.number card.cvc (get_price db sid)).2 = db :=
    validate_of_false hv
  cases hveq : validate db card.number card.cvc (get_price db sid) with
  | mk b db1 =>
    rw [hveq] at hv hdb
    cases hv
    cases hdb
    simp [buy, hfree, hveq]

/-- `User.buy`, branch 3: seat free and card validation succeeds; the seat
is occupied in the post-charge state and a ticket is emitted. -/
theorem buy_of_success {db : DB} {sid : String} {card : Card} (f : Nat → Nat) (u : String)
    (hfree : is_free db sid = true)
    (hv : (validate db card.number card.cvc (get_price db sid)).1 = true) :
    buy f u db sid card =
      ("Purchase Successful!",
        occupy (validate db card.number card.cvc (get_price db sid)).2 sid,
        some (mkTicket f u
          (get_price (occupy (validate db card.number card.cvc (get_price db sid)).2 sid) sid)
          sid)) := by
  cases hveq : validate db card.number card.cvc (get_price db sid) with
  | mk b db1 =>
    rw [hveq] at hv
    cases hv
    simp [buy, hfree, hveq]

/-- C1: `User.buy` performs exactly the spec's decision sequence: seat not
free yields `"Seat is taken!"` with the state untouched; free seat but
failing card validation at the seat's price yields
`"There was a problem with your card!"` with the state untouched; otherwise
it occupies the seat, emits a ticket, and returns
`"Purchase Successful!"` — and the outcome is always exactly one of those
three strings. -/
theorem c1_buy_decision_sequence (f : Nat → Nat) (u : String) (db : DB)
    (sid : String) (card : Card) :
    (is_free db sid = false → buy f u db sid card = ("Seat is taken!", db, none)) ∧
    (is_free db sid = true →
      (validate db card.number card.cvc (get_price db sid)).1 = false →
        buy f u db sid card = ("There was a problem with your card!", db, none)) ∧
    (is_free db sid = true →
      (validate db card.number card.cvc (get_price db sid)).1 = true →
        buy f u db sid card =
          ("Purchase Successful!",
            occupy (validate db card.number card.cvc (get_price db sid)).2 sid,
            some (mkTicket f u
              (get_price (occupy (validate db card.number card.cvc (get_price db sid)).2 sid) sid)
              sid))) ∧
    ((buy f u db sid card).1 = "Seat is taken!" ∨
      (buy f u db sid card).1 = "There was a problem with your card!" ∨
      (buy f u db sid card).1 = "Purchase Successful!") := by
  refine ⟨fun hfree => buy_of_taken f u card hfree,
    fun hfree hv => buy_of_card_fail f u hfree hv,
    fun hfree hv => buy_of_success f u hfree hv, ?_⟩
  cases hfree : is_free db sid with
  | false => rw [buy_of_taken f u card hfree]; exact Or.inl rfl
  | true =>
    cases hv : (validate db card.number card.cvc (get_price db sid)).1 with
    | false => rw [buy_of_card_fail f u hfree hv]; exact Or.inr (Or.inl rfl)
    | true => rw [buy_of_success f u hfree hv]; exact Or.inr (Or.inr rfl)

/-- C1 witness: concrete scenario 1 run through the successful branch of the
decision sequence. -/
theorem c1_buy_decision_sequence_witness :
    buy (fun _ => 0) "Alice" dbS1 "12" cardS1 =
      ("Purchase Successful!",
        occupy (validate dbS1 cardS1.number cardS1.cvc (get_price dbS1 "12")).2 "12",
        some (mkTicket (fun _ => 0) "Alice"
          (get_price (occupy (validate dbS1 cardS1.number cardS1.cvc (get_price dbS1 "12")).2 "12") "12")
          "12")) :=
  (c1_buy_decision_sequence (fun _ => 0) "Alice" dbS1 "12" cardS1).2.2.1 (by decide) (by decide)

/-- C2: whenever `User.buy` returns a failure outcome, the database — every
seat's `taken` flag and every card's balance — is unchanged. -/
theorem c2_failure_no_state_change (f : Nat → Nat) (u : String) (db : DB)
    (sid : String) (card : Card) :
    ((buy f u db sid card).1 = "Seat is taken!" ∨
      (buy f u db sid card).1 = "There was a problem with your card!") →
    (buy f u db sid card).2.1 = db := by
  intro h
  cases hfree : is_free db sid with
  | false => rw [buy_of_taken f u card hfree]
  | true =>
    cases hv : (validate db card.number card.cvc (get_price db sid)).1 with
    | false => rw [buy_of_card_fail f u hfree hv]
    | true =>
      exfalso
      rw [buy_of_success f u hfree hv] at h
      rcases h with h | h
      · exact absurd (show ("Purchase Successful!" : String) = "Seat is taken!" from h) (by decide)
      · exact absurd
          (show ("Purchase Successful!" : String) = "There was a problem with your card!" from h)
          (by decide)

/-- C2 witness: buying the already-taken seat `"12"` leaves the database
unchanged. -/
theorem c2_failure_no_state_change_witness :
    (buy (fun _ => 0) "Bob" dbTaken "12" cardS1).2.1 = dbTaken :=
  c2_failure_no_state_change (fun _ => 0) "Bob" dbTaken "12" cardS1 (Or.inl (by decide))

/-! ## Lookup/update interaction lemmas -/

/-- After `UPDATE Card SET balance = v WHERE number = n AND cvc = c`, the
fetched row is the fetched row from before with its balance set to `v`. -/
theorem find?_updateCardBalance (cards : List CardRec) (n c : String) (v : Int)
    (r : CardRec) (h : cards.find? (fun x => x.number == n && x.cvc == c) = some r) :
    (updateCardBalance cards n c v).find? (fun x => x.number == n && x.cvc == c)
      = some { r with balance := v } := by
  unfold updateCardBalance
  exact find?_map_update (fun x => x.number == n && x.cvc == c)
    (fun x => { x with balance := v }) (fun x hx => hx) cards r h

/-- After `UPDATE Seat SET taken = v WHERE seat_id = sid`, the fetched row
is the fetched row from before with its `taken` flag set to `v`. -/
theorem find?_updateSeatTaken (seats : List SeatRec) (sid : String) (v : Int)
    (r : SeatRec) (h : seats.find? (fun x => x.seat_id == sid) = some r) :
    (updateSeatTaken seats sid v).find? (fun x => x.seat_id == sid)
      = some { r with taken := v } := by
  unfold updateSeatTaken
  exact find?_map_update (fun x => x.seat_id == sid)
    (fun x => { x with taken := v }) (fun x hx => hx) seats r h

/-- `seatQuery` depends only on the `Seat` table. -/
theorem seatQuery_congr {d1 d2 : DB} (h : d1.seats = d2.seats) (sid : String) :
    seatQuery d1 sid = seatQuery d2 sid := by
  unfold seatQuery
  rw [h]

/-- `cardQuery` depends only on the `Card` table. -/
theorem cardQuery_congr {d1 d2 : DB} (h : d1.cards = d2.cards) (n c : String) :
    cardQuery d1 n c = cardQuery d2 n c := by
  unfold cardQuery
  rw [h]

/-- `Seat.is_free` depends only on the `Seat` table. -/
theorem is_free_congr {d1 d2 : DB} (h : d1.seats = d2.seats) (sid : String) :
    is_free d1 sid = is_free d2 sid := by
  unfold is_free isFreeResult
  rw [seatQuery_congr h]

/-- `Seat.get_price` depends only on the `Seat` table. -/
theorem get_price_congr {d1 d2 : DB} (h : d1.seats = d2.seats) (sid : String) :
    get_price d1 sid = get_price d2 sid := by
  unfold get_price getPriceResult
  rw [seatQuery_congr h]

/-- `Seat.occupy` touches only the `Seat` table. -/
theorem occupy_cards (db : DB) (sid : String) : (occupy db sid).cards = db.cards := by
  unfold occupy
  split <;> rfl

/-- When the fetched seat row exists, `is_free` reports its `taken` flag. -/
theorem is_free_of_seatQuery {db : DB} {sid : String} {r : SeatRec}
    (h : seatQuery db sid = some r) : is_free db sid = (r.taken == 0) := by
  unfold is_free isFreeResult
  rw [h]
  rfl

/-- When the fetched seat row exists, `get_price` reports its price. -/
theorem get_price_of_seatQuery {db : DB} {sid : String} {r : SeatRec}
    (h : seatQuery db sid = some r) : get_price db sid = r.price := by
  unfold get_price getPriceResult
  rw [h]
  rfl

/-- `Card.validate` when no card row matches: `False`, database untouched. -/
theorem validate_none_spec {db : DB} {n c : String} {p : Int}
    (h : cardQuery db n c = none) : validate db n c p = (false, db) := by
  simp [validate, h]

/-- `Card.validate` when the fetched balance is below the price: `False`,
database untouched. -/
theorem validate_insufficient_spec {db : DB} {n c : String} {p : Int} {r : CardRec}
    (hr : cardQuery db n c = some r) (hlt : r.balance < p) :
    validate db n c p = (false, db) := by
  have hnb : ¬(r.balance ≥ p) := not_le.mpr hlt
  simp [validate, hr, hnb]

/-- `Card.validate` when the fetched balance covers the price: the resulting
state is the balance `UPDATE` applied to the `Card` table. -/
theorem validate_success_state {db : DB} {n c : String} {p : Int} {r : CardRec}
    (hr : cardQuery db n c = some r) (hle : p ≤ r.balance) :
    (validate db n c p).2
      = { db with cards := updateCardBalance db.cards n c (r.balance - p) } := by
  have hge : r.balance ≥ p := hle
  simp [validate, hr, hge]

/-- `Card.validate` when the fetched balance covers the price: returns `True`
and the fetched balance drops by exactly the price. -/
theorem validate_success_spec {db : DB} {n c : String} {p : Int} {r : CardRec}
    (hr : cardQuery db n c = some r) (hle : p ≤ r.balance) :
    (validate db n c p).1 = true ∧
    cardQuery (validate db n c p).2 n c = some { r with balance := r.balance - p } := by
  have hge : r.balance ≥ p := hle
  constructor
  · simp [validate, hr, hge]
  · have hfind : db.cards.find? (fun x => x.number == n && x.cvc == c) = some r := hr
    rw [validate_success_state hr hle]
    exact find?_updateCardBalance db.cards n c (r.balance - p) r hfind

/-- C5: `Card.validate(price)` returns `False` when no record matches the
`(number, cvc)` pair or the matching record's balance is below `price`, in
which cases the database is untouched; otherwise it returns `True` and the
fetched record's balance is decremented by exactly `price`. -/
theorem c5_validate_contract (db : DB) (n c : String) (p : Int) :
    (cardQuery db n c = none → validate db n c p = (false, db)) ∧
    (∀ r, cardQuery db n c = some r → r.balance < p → validate db n c p = (false, db)) ∧
    (∀ r, cardQuery db n c = some r → p ≤ r.balance →
      (validate db n c p).1 = true ∧
      cardQuery (validate db n c p).2 n c = some { r with balance := r.balance - p }) ∧
    ((validate db n c p).1 = false → (validate db n c p).2 = db) := by
  exact ⟨fun h => validate_none_spec h,
    fun r hr hlt => validate_insufficient_spec hr hlt,
    fun r hr hle => validate_success_spec hr hle,
    fun h => validate_of_false h⟩

/-- C5 witness: charging seat price 10 to the card with balance 50 succeeds
and leaves the fetched balance at 40. -/
theorem c5_validate_contract_witness :
    (validate dbS1 "4111" "123" 10).1 = true ∧
    cardQuery (validate dbS1 "4111" "123" 10).2 "4111" "123" = some ⟨"4111", "123", 40⟩ :=
  (c5_validate_contract dbS1 "4111" "123" 10).2.2.1 ⟨"4111", "123", 50⟩ (by decide) (by decide)

/-- C3: when the seat's fetched row is free and the card's fetched row has
balance at least the seat's price, `User.buy` succeeds, the balance drops
by exactly the price, and the `taken` flag goes from 0 to 1. -/
theorem c3_successful_purchase (f : Nat → Nat) (u : String) (db : DB) (sid : String)
    (card : Card) (r : SeatRec) (cr : CardRec)
    (hs : seatQuery db sid = some r) (htaken : r.taken = 0)
    (hc : cardQuery db card.number card.cvc = some cr) (hbal : r.price ≤ cr.balance) :
    (buy f u db sid card).1 = "Purchase Successful!" ∧
    cardQuery (buy f u db sid card).2.1 card.number card.cvc
      = some { cr with balance := cr.balance - r.price } ∧
    seatQuery (buy f u db sid card).2.1 sid = some { r with taken := 1 } := by
  have hfree : is_free db sid = true := by
    rw [is_free_of_seatQuery hs, htaken]
    rfl
  have hprice : get_price db sid = r.price := get_price_of_seatQuery hs
  have hval := validate_success_spec hc hbal
  have hv : (validate db card.number card.cvc (get_price db sid)).1 = true := by
    rw [hprice]
    exact hval.1
  have hbuy := buy_of_success f u hfree hv
  rw [hbuy]
  set db1 := (validate db card.number card.cvc (get_price db sid)).2 with hdb1
  have hseats1 : db1.seats = db.seats := validate_seats db card.number card.cvc (get_price db sid)
  have hsq1 : seatQuery db1 sid = some r := by rw [seatQuery_congr hseats1, hs]
  have hfree1 : is_free db1 sid = true := by rw [is_free_congr hseats1, hfree]
  have hocc : occupy db1 sid = { db1 with seats := updateSeatTaken db1.seats sid 1 } := by
    unfold occupy
    rw [if_pos hfree1]
  refine ⟨rfl, ?_, ?_⟩
  · have hcards2 : (occupy db1 sid).cards = db1.cards := occupy_cards db1 sid
    rw [show ("Purchase Successful!", occupy db1 sid,
        some (mkTicket f u (get_price (occupy db1 sid) sid) sid)).2.1 = occupy db1 sid from rfl]
    rw [cardQuery_congr hcards2]
    rw [hdb1, hprice]
    exact hval.2
  · rw [show ("Purchase Successful!", occupy db1 sid,
        some (mkTicket f u (get_price (occupy db1 sid) sid) sid)).2.1 = occupy db1 sid from rfl]
    rw [hocc]
    show (updateSeatTaken db1.seats sid 1).find? (fun x => x.seat_id == sid) = _
    rw [hseats1]
    exact find?_updateSeatTaken db.seats sid 1 r hs

/-- C3 witness: concrete scenario 1 — seat `"12"` at price 10, card balance
50 → success, balance 40, seat taken. -/
theorem c3_successful_purchase_witness :
    (buy (fun _ => 0) "Alice" dbS1 "12" cardS1).1 = "Purchase Successful!" ∧
    cardQuery (buy (fun _ => 0) "Alice" dbS1 "12" cardS1).2.1 "4111" "123"
      = some ⟨"4111", "123", 40⟩ ∧
    seatQuery (buy (fun _ => 0) "Alice" dbS1 "12" cardS1).2.1 "12" = some ⟨"12", 10, 1⟩ :=
  c3_successful_purchase (fun _ => 0) "Alice" dbS1 "12" cardS1
    ⟨"12", 10, 0⟩ ⟨"4111", "123", 50⟩ (by decide) (by decide) (by decide) (by decide)

/-- A seat reported free has a fetched row whose `taken` flag is 0. -/
theorem exists_of_is_free {db : DB} {sid : String} (h : is_free db sid = true) :
    ∃ r, seatQuery db sid = some r ∧ r.taken = 0 := by
  cases hq : seatQuery db sid with
  | none =>
    have hf : is_free db sid = false := by
      unfold is_free isFreeResult
      rw [hq]
      rfl
    rw [hf] at h
    exact Bool.noConfusion h
  | some r =>
    rw [is_free_of_seatQuery hq] at h
    exact ⟨r, rfl, by simpa using h⟩

/-- C4: after a successful `User.buy`, retrying the purchase of the same
seat — with any card and any user — returns `"Seat is taken!"` and leaves
the post-success database unchanged. -/
theorem c4_retry_after_success (f : Nat → Nat) (u : String) (db : DB) (sid : String)
    (card : Card) (g : Nat → Nat) (u2 : String) (card2 : Card)
    (hs : (buy f u db sid card).1 = "Purchase Successful!") :
    buy g u2 (buy f u db sid card).2.1 sid card2
      = ("Seat is taken!", (buy f u db sid card).2.1, none) := by
  cases hfree : is_free db sid with
  | false =>
    rw [buy_of_taken f u card hfree] at hs
    exact absurd (show ("Seat is taken!" : String) = "Purchase Successful!" from hs) (by decide)
  | true =>
    cases hv : (validate db card.number card.cvc (get_price db sid)).1 with
    | false =>
      rw [buy_of_card_fail f u hfree hv] at hs
      exact absurd
        (show ("There was a problem with your card!" : String) = "Purchase Successful!" from hs)
        (by decide)
    | true =>
      obtain ⟨r, hq, htaken⟩ := exists_of_is_free hfree
      rw [buy_of_success f u hfree hv]
      show buy g u2 (occupy (validate db card.number card.cvc (get_price db sid)).2 sid) sid card2
        = ("Seat is taken!", occupy (validate db card.number card.cvc (get_price db sid)).2 sid, none)
      set db1 := (validate db card.number card.cvc (get_price db sid)).2 with hdb1
      have hseats1 : db1.seats = db.seats :=
        validate_seats db card.number card.cvc (get_price db sid)
      have hfree1 : is_free db1 sid = true := by rw [is_free_congr hseats1, hfree]
      have hocc : occupy db1 sid = { db1 with seats := updateSeatTaken db1.seats sid 1 } := by
        unfold occupy
        rw [if_pos hfree1]
      have hq2 : seatQuery (occupy db1 sid) sid = some { r with taken := 1 } := by
        rw [hocc]
        show (updateSeatTaken db1.seats sid 1).find? (fun x => x.seat_id == sid) = _
        rw [hseats1]
        exact find?_updateSeatTaken db.seats sid 1 r hq
      have hfree2 : is_free (occupy db1 sid) sid = false := by
        rw [is_free_of_seatQuery hq2]
        rfl
      exact buy_of_taken g u2 card2 hfree2

/-- C4 witness: after the concrete successful purchase of seat `"12"`, a
repeat purchase fails with `"Seat is taken!"` and changes nothing. -/
theorem c4_retry_after_success_witness :
    buy (fun _ => 0) "Bob" (buy (fun _ => 0) "Alice" dbS1 "12" cardS1).2.1 "12" cardS1
      = ("Seat is taken!", (buy (fun _ => 0) "Alice" dbS1 "12" cardS1).2.1, none) :=
  c4_retry_after_success (fun _ => 0) "Alice" dbS1 "12" cardS1
    (fun _ => 0) "Bob" cardS1 (by decide)

/-- Every balance in the `Card` table stays non-negative across a
`Card.validate` call: the `UPDATE` writes `balance - price` only under the
fetched row's `balance >= price` guard. -/
theorem validate_balance_nonneg (db : DB) (n c : String) (p : Int)
    (hall : ∀ r ∈ db.cards, 0 ≤ r.balance) :
    ∀ r ∈ ((validate db n c p).2).cards, 0 ≤ r.balance := by
  intro r hr
  cases hq : cardQuery db n c with
  | none =>
    rw [validate_none_spec hq] at hr
    exact hall r hr
  | some cr =>
    by_cases hge : p ≤ cr.balance
    · rw [validate_success_state hq hge] at hr
      rcases List.mem_map.mp hr with ⟨x, hx, hxe⟩
      by_cases hc : (x.number == n && x.cvc == c) = true
      · rw [if_pos hc] at hxe
        rw [← hxe]
        exact sub_nonneg.mpr hge
      · rw [if_neg hc] at hxe
        rw [← hxe]
        exact hall x hx
    · rw [validate_insufficient_spec hq (not_le.mp hge)] at hr
      exact hall r hr

/-- C9: non-negative balances are an invariant: if every card balance is
non-negative and the price is non-negative, every balance is still
non-negative after any `Card.validate` call — and after any `User.buy` —
because the debit happens only under the `balance >= price` guard. -/
theorem c9_balance_invariant (db : DB) (n c : String) (p : Int) (f : Nat → Nat)
    (u sid : String) (card : Card)
    (hall : ∀ r ∈ db.cards, 0 ≤ r.balance) (hp : 0 ≤ p) :
    (∀ r ∈ ((validate db n c p).2).cards, 0 ≤ r.balance) ∧
    (∀ r ∈ ((buy f u db sid card).2.1).cards, 0 ≤ r.balance) := by
  refine ⟨validate_balance_nonneg db n c p hall, ?_⟩
  cases hfree : is_free db sid with
  | false =>
    rw [buy_of_taken f u card hfree]
    exact hall
  | true =>
    cases hv : (validate db card.number card.cvc (get_price db sid)).1 with
    | false =>
      rw [buy_of_card_fail f u hfree hv]
      exact hall
    | true =>
      rw [buy_of_success f u hfree hv]
      show ∀ r ∈ ((occupy (validate db card.number card.cvc (get_price db sid)).2 sid)).cards,
        0 ≤ r.balance
      rw [occupy_cards]
      exact validate_balance_nonneg db card.number card.cvc (get_price db sid) hall

/-- C9 witness: the debited card row after the concrete successful purchase
still has a non-negative balance. -/
theorem c9_balance_invariant_witness : 0 ≤ (CardRec.mk "4111" "123" 40).balance :=
  (c9_balance_invariant dbS1 "4111" "123" 10 (fun _ => 0) "Alice" "12" cardS1
    (by decide) (by decide)).2 (CardRec.mk "4111" "123" 40) (by decide)

/-! ## Operation sequences (for the temporal claim) -/

/-- One database-touching operation of the program: the two `Seat` reads,
`Seat.occupy`, `Card.validate`, and the composite `User.buy`.  The reads
return no state because their Python bodies run only `SELECT`s. -/
inductive Op where
  | getPriceOp (sid : String)
  | isFreeOp (sid : String)
  | occupyOp (sid : String)
  | validateOp (number cvc : String) (price : Int)
  | buyOp (f : Nat → Nat) (u : String) (sid : String) (card : Card)

/-- The database state after one operation. -/
def step (db : DB) : Op → DB
  | Op.getPriceOp _ => db
  | Op.isFreeOp _ => db
  | Op.occupyOp sid => occupy db sid
  | Op.validateOp n c p => (validate db n c p).2
  | Op.buyOp f u sid card => (buy f u db sid card).2.1

/-- The database state after a sequence of operations. -/
def run (db : DB) (ops : List Op) : DB :=
  ops.foldl step db

/-- How the `Seat` table may evolve: row count, identifiers and prices are
unchanged, and a `taken` flag equal to 1 stays 1. -/
def SeatEvolves (olds news : List SeatRec) : Prop :=
  news.length = olds.length ∧
  ∀ (i : Nat) (h : i < olds.length) (h2 : i < news.length),
    (news.get ⟨i, h2⟩).seat_id = (olds.get ⟨i, h⟩).seat_id ∧
    (news.get ⟨i, h2⟩).price = (olds.get ⟨i, h⟩).price ∧
    ((olds.get ⟨i, h⟩).taken = 1 → (news.get ⟨i, h2⟩).taken = 1)

theorem seatEvolves_refl (l : List SeatRec) : SeatEvolves l l := by
  refine ⟨rfl, fun i h h2 => ⟨rfl, rfl, fun ht => ht⟩⟩

theorem seatEvolves_trans {a b c : List SeatRec}
    (h1 : SeatEvolves a b) (h2 : SeatEvolves b c) : SeatEvolves a c := by
  obtain ⟨hl1, hg1⟩ := h1
  obtain ⟨hl2, hg2⟩ := h2
  refine ⟨hl2.trans hl1, fun i h hc => ?_⟩
  have hb : i < b.length := by omega
  obtain ⟨e1, p1, t1⟩ := hg1 i h hb
  obtain ⟨e2, p2, t2⟩ := hg2 i hb hc
  exact ⟨e2.trans e1, p2.trans p1, fun ht => t2 (t1 ht)⟩

/-- The `occupy` write only sets `taken` flags to 1. -/
theorem seatEvolves_update (l : List SeatRec) (sid : String) :
    SeatEvolves l (updateSeatTaken l sid 1) := by
  refine ⟨List.length_map l _, fun i h h2 => ?_⟩
  have hget : (updateSeatTaken l sid 1).get ⟨i, h2⟩
      = if ((l.get ⟨i, h⟩).seat_id == sid) = true
          then { l.get ⟨i, h⟩ with taken := 1 } else l.get ⟨i, h⟩ := by
    simp [updateSeatTaken, List.get_eq_getElem, List.getElem_map]
  rw [hget]
  by_cases hc : ((l.get ⟨i, h⟩).seat_id == sid) = true
  · rw [if_pos hc]
    exact ⟨rfl, rfl, fun _ => rfl⟩
  · rw [if_neg hc]
    exact ⟨rfl, rfl, fun ht => ht⟩

/-- One step lets the `Seat` table evolve only as `SeatEvolves` allows, and
any change to it is exactly an `occupy` write (`UPDATE ... SET taken = 1`). -/
theorem step_seats (db : DB) (op : Op) :
    SeatEvolves db.seats (step db op).seats ∧
    ((step db op).seats = db.seats ∨
      ∃ sid, (step db op).seats = updateSeatTaken db.seats sid 1) := by
  cases op with
  | getPriceOp sid => exact ⟨seatEvolves_refl db.seats, Or.inl rfl⟩
  | isFreeOp sid => exact ⟨seatEvolves_refl db.seats, Or.inl rfl⟩
  | occupyOp sid =>
    simp only [step]
    unfold occupy
    by_cases hfree : is_free db sid = true
    · rw [if_pos hfree]
      exact ⟨seatEvolves_update db.seats sid, Or.inr ⟨sid, rfl⟩⟩
    · rw [if_neg hfree]
      exact ⟨seatEvolves_refl db.seats, Or.inl rfl⟩
  | validateOp n c p =>
    simp only [step]
    rw [validate_seats]
    exact ⟨seatEvolves_refl db.seats, Or.inl rfl⟩
  | buyOp f u sid card =>
    simp only [step]
    cases hfree : is_free db sid with
    | false =>
      rw [buy_of_taken f u card hfree]
      exact ⟨seatEvolves_refl db.seats, Or.inl rfl⟩
    | true =>
      cases hv : (validate db card.number card.cvc (get_price db sid)).1 with
      | false =>
        rw [buy_of_card_fail f u hfree hv]
        exact ⟨seatEvolves_refl db.seats, Or.inl rfl⟩
      | true =>
        rw [buy_of_success f u hfree hv]
        have hseats1 : ((validate db card.number card.cvc (get_price db sid)).2).seats
            = db.seats := validate_seats db card.number card.cvc (get_price db sid)
        show SeatEvolves db.seats
            ((occupy (validate db card.number card.cvc (get_price db sid)).2 sid)).seats ∧
          (((occupy (validate db card.number card.cvc (get_price db sid)).2 sid)).seats
              = db.seats ∨
            ∃ s2, ((occupy (validate db card.number card.cvc (get_price db sid)).2 sid)).seats
              = updateSeatTaken db.seats s2 1)
        unfold occupy
        by_cases hfree1 : is_free (validate db card.number card.cvc (get_price db sid)).2 sid
            = true
        · rw [if_pos hfree1, hseats1]
          exact ⟨seatEvolves_update db.seats sid, Or.inr ⟨sid, rfl⟩⟩
        · rw [if_neg hfree1, hseats1]
          exact ⟨seatEvolves_refl db.seats, Or.inl rfl⟩

theorem run_seats (ops : List Op) : ∀ db : DB, SeatEvolves db.seats (run db ops).seats := by
  induction ops with
  | nil => intro db; exact seatEvolves_refl db.seats
  | cons op ops ih =>
    intro db
    exact seatEvolves_trans (step_seats db op).1 (ih (step db op))

/-- C10: across every sequence of operations the `Seat` table keeps its
rows, identifiers and prices, a `taken` flag once equal to 1 stays 1
forever, and a single step changes the `Seat` table only through the
`occupy` write `UPDATE Seat SET taken = 1`. -/
theorem c10_taken_never_reset (db : DB) (ops : List Op) :
    SeatEvolves db.seats (run db ops).seats ∧
    ∀ op, (step db op).seats = db.seats ∨
      ∃ sid, (step db op).seats = updateSeatTaken db.seats sid 1 :=
  ⟨run_seats ops db, fun op => (step_seats db op).2⟩

/-- C10 witness: after the concrete successful purchase of seat `"12"`
followed by a retry, the first seat row of `dbTaken` still has `taken = 1`. -/
theorem c10_taken_never_reset_witness :
    ((run dbTaken [Op.buyOp (fun _ => 0) "Bob" "12" cardS1]).seats.get
      ⟨0, ((c10_taken_never_reset dbTaken [Op.buyOp (fun _ => 0) "Bob" "12" cardS1]).1.1).symm ▸
        (by decide : (0 : Nat) < dbTaken.seats.length)⟩).taken = 1 := by
  exact ((c10_taken_never_reset dbTaken [Op.buyOp (fun _ => 0) "Bob" "12" cardS1]).1.2
    0 (by decide) _).2.2 (by decide)

/-! ## Ticket identifier generation and NotFound handling -/

/-- Whatever the random source yields, `random.choice(string.ascii_letters)`
returns an element of `string.ascii_letters`. -/
theorem pickChar_mem (n : Nat) : pickChar n ∈ asciiLetters :=
  asciiLetters.get_mem _ _

/-- C6 counterexample: the character `'0'` belongs to the claim's
alphanumeric set but not to `string.ascii_letters`, the set the generator
actually draws from — and a concretely generated identifier contains no
digit at all. -/
theorem c6_counterexample :
    '0' ∈ alphanumericChars ∧ '0' ∉ asciiLetters ∧
    ((ticketId (fun n => n)).toList.all (fun ch => !ch.isDigit)) = true := by decide

/-- C6 (amended): every ticket identifier is an 8-character string drawn
from the 52 ASCII letters of `string.ascii_letters` — a strict subset of
the alphanumeric set — so each character is alphanumeric but a digit never
appears; no uniqueness across tickets is guaranteed. -/
theorem c6_ticket_id_charset (f : Nat → Nat) :
    (ticketId f).length = 8 ∧
    ∀ ch ∈ (ticketId f).toList,
      ch ∈ asciiLetters ∧ ch ∈ alphanumericChars ∧ ch.isDigit = false := by
  constructor
  · have hlen : (ticketId f).length = ((List.range 8).map (fun i => pickChar (f i))).length :=
      rfl
    rw [hlen, List.length_map, List.length_range]
  · intro ch hch
    have hmem0 : ch ∈ (List.range 8).map (fun i => pickChar (f i)) := hch
    rcases List.mem_map.mp hmem0 with ⟨i, _, rfl⟩
    have hmem : pickChar (f i) ∈ asciiLetters := pickChar_mem (f i)
    have hall : ∀ c ∈ asciiLetters, c.isDigit = false := by decide
    exact ⟨hmem, List.mem_append.mpr (Or.inl hmem), hall _ hmem⟩

/-- C6 witness: a concretely generated identifier has length 8. -/
theorem c6_ticket_id_charset_witness : (ticketId (fun _ => 0)).length = 8 :=
  (c6_ticket_id_charset (fun _ => 0)).1

/-- A database whose `Seat` table has no row for seat `"12"`. -/
def dbNoSeat : DB := { seats := [⟨"1", 25, 0⟩], cards := [] }

/-- C7 counterexample: for the concrete missing seat `"12"`, the NotFound
`ValueError` is raised internally (`getPriceResult = none`) but the caller
receives the plain degraded value 0 — not an observable error, and the 0
arrives on the NotFound path rather than only on a storage fault. -/
theorem c7_counterexample :
    getPriceResult dbNoSeat "12" = none ∧ get_price dbNoSeat "12" = 0 := by decide

/-- C7 (amended): when no record matches the seat identifier,
`Seat.get_price` raises its `ValueError` internally but catches it in its
own broad handler and returns the degraded amount 0 to the caller; the
NotFound failure is not observable by the caller, and 0 is returned on the
NotFound path as well (not only on a storage fault). -/
theorem c7_get_price_not_observable (db : DB) (sid : String)
    (h : seatQuery db sid = none) :
    getPriceResult db sid = none ∧ get_price db sid = 0 := by
  constructor
  · unfold getPriceResult
    rw [h]
    rfl
  · unfold get_price getPriceResult
    rw [h]
    rfl

/-- C7 witness: seat `"99"` has no row in `dbS1`. -/
theorem c7_get_price_not_observable_witness :
    getPriceResult dbS1 "99" = none ∧ get_price dbS1 "99" = 0 :=
  c7_get_price_not_observable dbS1 "99" (by decide)

/-- C8: a seat identifier with no matching record is swallowed rather than
surfaced: the internal NotFound errors are raised (`... = none`) yet
`Seat.get_price` returns the degraded default 0 and `Seat.is_free` returns
`false`, both as plain values to the caller. -/
theorem c8_notfound_swallowed (db : DB) (sid : String)
    (h : seatQuery db sid = none) :
    getPriceResult db sid = none ∧ isFreeResult db sid = none ∧
    get_price db sid = 0 ∧ is_free db sid = false := by
  refine ⟨?_, ?_, ?_, ?_⟩
  · unfold getPriceResult
    rw [h]
    rfl
  · unfold isFreeResult
    rw [h]
    rfl
  · unfold get_price getPriceResult
    rw [h]
    rfl
  · unfold is_free isFreeResult
    rw [h]
    rfl

/-- C8 witness: seat `"99"` has no row in `dbTaken`. -/
theorem c8_notfound_swallowed_witness :
    getPriceResult dbTaken "99" = none ∧ isFreeResult dbTaken "99" = none ∧
    get_price dbTaken "99" = 0 ∧ is_free dbTaken "99" = false :=
  c8_notfound_swallowed dbTaken "99" (by decide)
